import Mathlib

/-!
Verification of the job-scheduler repository's scheduling and execution
engines against its specification.

The development shallowly embeds the JavaScript sources:

* `src/utils/cronParser.js`   — namespace `CronParser`
* `src/services/executor.js`  — namespace `Executor`
* `src/services/scheduler.js` — namespace `Scheduler`

Machine conventions: instants are naturals counting milliseconds since the
Unix epoch (the scheduler only ever handles `Date.now()`-derived instants,
which are nonnegative); civil-time decomposition follows the proleptic
Gregorian calendar in UTC.  JavaScript exceptions are embedded as
`Except String` / `Option` results, and JavaScript numbers that can arise
in the parser are embedded as `JSNum` (an integer or `NaN`).  Strings are
manipulated as their character lists so that every operation is a
structurally recursive, kernel-evaluable function.
-/

/-- Model of the JavaScript numbers produced by `Number(token)` inside the
parser: either an integer or `NaN`.  (No fractional values arise from the
integer-literal tokens the parser's claims exercise.) -/
inductive JSNum where
  | nan : JSNum
  | int : Int → JSNum
deriving DecidableEq, Repr

namespace JSNum

/-- JavaScript `<` : every comparison against `NaN` is false. -/
def lt : JSNum → JSNum → Bool
  | .int a, .int b => a < b
  | _, _ => false

/-- JavaScript `>` : every comparison against `NaN` is false. -/
def gt : JSNum → JSNum → Bool
  | .int a, .int b => a > b
  | _, _ => false

/-- JavaScript `Array.prototype.includes` equality (SameValueZero):
`NaN` is equal to `NaN`. -/
def sameValueZero : JSNum → JSNum → Bool
  | .nan, .nan => true
  | .int a, .int b => a == b
  | _, _ => false

end JSNum

/-- JavaScript `String.prototype.trim` on a character list. -/
def jsTrim (s : List Char) : List Char :=
  ((s.dropWhile Char.isWhitespace).reverse.dropWhile Char.isWhitespace).reverse

/-- Split a character list at every occurrence of `c` (the behavior of
JavaScript `split('-')` / `split(',')`: no collapsing, empty pieces kept). -/
def splitOnCharAux (c : Char) : List Char → List Char → List (List Char)
  | [], acc => [acc.reverse]
  | x :: xs, acc =>
      if x = c then acc.reverse :: splitOnCharAux c xs []
      else splitOnCharAux c xs (x :: acc)

/-- Split a character list at every occurrence of `c`. -/
def splitOnChar (c : Char) (s : List Char) : List (List Char) := splitOnCharAux c s []

/-- Split a character list on runs of whitespace, dropping empty pieces
(the behavior of `split(/\s+/)` on a trimmed, nonempty string). -/
def splitWsAux : List Char → List Char → List (List Char)
  | [], acc => if acc = [] then [] else [acc.reverse]
  | x :: xs, acc =>
      if x.isWhitespace then
        if acc = [] then splitWsAux xs [] else acc.reverse :: splitWsAux xs []
      else splitWsAux xs (x :: acc)

/-- Model of `expression.trim().split(/\s+/)`: splitting a trimmed empty
string yields `[""]` in JavaScript, otherwise the whitespace-separated
tokens. -/
def jsSplitTrimWs (s : String) : List (List Char) :=
  let t := jsTrim s.data
  if t = [] then [[]] else splitWsAux t []

/-- Numeric value of a list of decimal digits. -/
def digitsVal (l : List Char) : Nat :=
  l.foldl (fun acc c => acc * 10 + (c.toNat - 48)) 0

/-- Model of JavaScript `Number(string)` restricted to the token grammar the
cron parser meets: optional-signed decimal integer literals (after trimming)
evaluate to their value, the empty string to `0`, everything else to `NaN`.
(Hex/float/exponent literals never appear in the claims' inputs.) -/
def jsNumber (s : List Char) : JSNum :=
  let t := jsTrim s
  if t = [] then .int 0
  else
    let neg := t.headD ' ' = '-'
    let digits := if t.headD ' ' = '-' ∨ t.headD ' ' = '+' then t.tail else t
    if digits ≠ [] ∧ digits.all Char.isDigit then
      .int ((if neg then -1 else 1) * (digitsVal digits : Int))
    else .nan

namespace CronParser

/-- A parsed schedule field, `cronParser.js` lines 34-113: an object
`\x7b type, values \x7d` with `type` one of `'all' | 'range' | 'list' |
'single'` and `values` the match-set (`null` for `'all'`). -/
inductive Field where
  | all : Field
  | range : List JSNum → Field
  | list : List JSNum → Field
  | single : List JSNum → Field
deriving DecidableEq, Repr

/-- Parsed schedule object, `cronParser.js` lines 21-28. -/
structure Schedule where
  second : Field
  minute : Field
  hour : Field
  day : Field
  month : Field
  dayOfWeek : Field
deriving DecidableEq, Repr

/-- Values materialized by `Array.from(\x7b length: end - start + 1 \x7d,
(_, i) => start + i)` (line 45): a `NaN` operand or a nonpositive length
yields the empty array. -/
def rangeValues : JSNum → JSNum → List JSNum
  | .int a, .int b =>
      if b - a + 1 ≤ 0 then []
      else (List.range (b - a + 1).toNat).map (fun i => JSNum.int (a + i))
  | _, _ => []

/-- Embedding of `CronParser.parseField` (lines 34-63). -/
def parseField (field : List Char) (min max : Int) : Except String Field :=
  if field = "*".data then .ok .all
  else if field.contains '-' then
    let parts := splitOnChar '-' field
    let start := jsNumber (parts.getD 0 [])
    let stop := jsNumber (parts.getD 1 [])
    if start.lt (.int min) ∨ stop.gt (.int max) ∨ start.gt stop then
      .error ("Invalid range in field: " ++ String.mk field)
    else .ok (.range (rangeValues start stop))
  else if field.contains ',' then
    let values := (splitOnChar ',' field).map jsNumber
    if values.any (fun v => v.lt (.int min) ∨ v.gt (.int max)) then
      .error ("Invalid value in list: " ++ String.mk field)
    else .ok (.list values)
  else
    let value := jsNumber field
    if value.lt (.int min) ∨ value.gt (.int max) then
      .error ("Invalid value: " ++ String.mk field)
    else .ok (.single [value])

/-- The day-name table of `parseDayOfWeek` (lines 69-71). -/
def dayMap (s : List Char) : Option Int :=
  if s = "SUN".data then some 0
  else if s = "MON".data then some 1
  else if s = "TUE".data then some 2
  else if s = "WED".data then some 3
  else if s = "THU".data then some 4
  else if s = "FRI".data then some 5
  else if s = "SAT".data then some 6
  else none

/-- The `while (true)` loop of `parseDayOfWeek`'s range branch
(lines 87-93): push `current`, stop on `endNum`, else step `(current+1)%7`.
Both bounds come from `dayMap`, so they lie in `0..6` and the loop pushes at
most seven values; fuel `7` makes the recursion structural without changing
the function on those inputs. -/
def wrapRangeAux : Nat → Nat → Nat → List Int
  | 0, _, _ => []
  | fuel + 1, current, stop =>
      (current : Int) :: (if current = stop then [] else wrapRangeAux fuel ((current + 1) % 7) stop)

/-- Embedding of `CronParser.parseDayOfWeek` (lines 68-113). -/
def parseDayOfWeek (field : List Char) : Except String Field :=
  if field = "*".data then .ok .all
  else if field.contains '-' then
    let parts := splitOnChar '-' field
    match dayMap ((parts.getD 0 []).map Char.toUpper), dayMap ((parts.getD 1 []).map Char.toUpper) with
    | some startNum, some endNum =>
        .ok (.range ((wrapRangeAux 7 startNum.toNat endNum.toNat).map JSNum.int))
    | _, _ => .error ("Invalid day range: " ++ String.mk field)
  else if field.contains ',' then
    let values := (splitOnChar ',' field).map (fun day =>
      match dayMap (day.map Char.toUpper) with
      | some n => JSNum.int n
      | none => jsNumber day)
    .ok (.list values)
  else
    let value := match dayMap (field.map Char.toUpper) with
      | some n => JSNum.int n
      | none => jsNumber field
    if value.lt (.int 0) ∨ value.gt (.int 6) then
      .error ("Invalid day of week: " ++ String.mk field)
    else .ok (.single [value])

/-- Embedding of `CronParser.parse` (lines 14-29). -/
def parse (cronExpression : String) : Except String Schedule :=
  match jsSplitTrimWs cronExpression with
  | [p0, p1, p2, p3, p4, p5] => do
      let second ← parseField p0 0 59
      let minute ← parseField p1 0 59
      let hour ← parseField p2 0 23
      let day ← parseField p3 1 31
      let month ← parseField p4 1 12
      let dayOfWeek ← parseDayOfWeek p5
      return { second, minute, hour, day, month, dayOfWeek }
  | _ => .error "Invalid CRON expression. Expected format: \"second minute hour day month dayOfWeek\""

end CronParser

namespace CronParser

/-- Civil date (year, month `1..12`, day `1..31`) of a day count since
1970-01-01 in the proleptic Gregorian calendar (the decomposition behind
`Date.getDate` / `Date.getMonth`, modelled in UTC). -/
def civilFromDays (z : Nat) : Nat × Nat × Nat :=
  let shifted := z + 719468
  let era := shifted / 146097
  let doe := shifted % 146097
  let yoe := (doe - doe / 1460 + doe / 36524 - doe / 146096) / 365
  let y := yoe + era * 400
  let doy := doe - (365 * yoe + yoe / 4 - yoe / 100)
  let mp := (5 * doy + 2) / 153
  let d := doy - (153 * mp + 2) / 5 + 1
  let m := if mp < 10 then mp + 3 else mp - 9
  (if m ≤ 2 then y + 1 else y, m, d)

/-- `date.getSeconds()` for an instant in epoch milliseconds. -/
def getSeconds (t : Nat) : Nat := t / 1000 % 60

/-- `date.getMinutes()`. -/
def getMinutes (t : Nat) : Nat := t / 60000 % 60

/-- `date.getHours()`. -/
def getHours (t : Nat) : Nat := t / 3600000 % 24

/-- `date.getDay()` — day of week, `0` = Sunday (1970-01-01 was a Thursday). -/
def getDay (t : Nat) : Nat := (t / 86400000 + 4) % 7

/-- `date.getDate()` — day of month `1..31`. -/
def getDate (t : Nat) : Nat := (civilFromDays (t / 86400000)).2.2

/-- `date.getMonth() + 1` as computed at `cronParser.js` line 154. -/
def getMonthPlusOne (t : Nat) : Nat := (civilFromDays (t / 86400000)).2.1

/-- JavaScript `field.values.includes(value)` (SameValueZero membership). -/
def jsIncludes (vs : List JSNum) (v : JSNum) : Bool :=
  vs.any (fun x => x.sameValueZero v)

/-- Embedding of `CronParser.fieldMatches` (lines 170-175). -/
def fieldMatches (value : Nat) (field : Field) : Bool :=
  match field with
  | .all => true
  | .range vs => jsIncludes vs (.int value)
  | .list vs => jsIncludes vs (.int value)
  | .single vs => jsIncludes vs (.int value)

/-- Embedding of `CronParser.matchesSchedule` (lines 149-165). -/
def matchesSchedule (date : Nat) (schedule : Schedule) : Bool :=
  fieldMatches (getSeconds date) schedule.second &&
  fieldMatches (getMinutes date) schedule.minute &&
  fieldMatches (getHours date) schedule.hour &&
  fieldMatches (getDate date) schedule.day &&
  fieldMatches (getMonthPlusOne date) schedule.month &&
  fieldMatches (getDay date) schedule.dayOfWeek

/-- The one-year probe budget of `getNextExecution` (line 129). -/
def maxAttempts : Nat := 365 * 24 * 60 * 60

/-- The probe loop of `getNextExecution` (lines 132-141): test up to `fuel`
successive seconds starting at `next`; `none` embeds the
`NoExecutionFound` throw at line 143. -/
def getNextExecutionAux (schedule : Schedule) : Nat → Nat → Option Nat
  | 0, _ => none
  | fuel + 1, next =>
      if matchesSchedule next schedule then some next
      else getNextExecutionAux schedule fuel (next + 1000)

/-- Embedding of `CronParser.getNextExecution` (lines 121-144): truncate
`fromDate` to whole seconds, advance one second, then linearly probe. -/
def getNextExecution (fromDate : Nat) (schedule : Schedule) : Option Nat :=
  getNextExecutionAux schedule maxAttempts (fromDate / 1000 * 1000 + 1000)

end CronParser

deriving instance DecidableEq for Except

namespace Executor

/-- Outcome of one `axios.post` call (`executor.js` line 95): a response
with an HTTP status (with `validateStatus: () => true`, no status throws),
or a transport error carrying a message. -/
inductive AttemptResult where
  | response : Int → AttemptResult
  | transportError : String → AttemptResult
deriving DecidableEq, Repr

/-- Trace of one `makeRequest` run: the returned response status or the
thrown error message, the number of outbound attempts actually made, and
the backoff sleeps (milliseconds) awaited between attempts. -/
structure RequestTrace where
  result : Except String Int
  attempts : Nat
  sleeps : List Nat
deriving DecidableEq, Repr

/-- `this.maxRetries` (`executor.js` line 11). -/
def maxRetries : Nat := 3

/-- `this.retryDelay` in milliseconds (`executor.js` line 12). -/
def retryDelay : Nat := 1000

/-- JavaScript `response.status >= 200 && response.status < 300`. -/
def is2xx (status : Int) : Bool := 200 ≤ status && status < 300

/-- The attempt loop of `Executor.makeRequest` (lines 90-122), one recursive
step per loop iteration; the endpoint is an oracle giving each 1-based
attempt's result.  `fuel` counts the loop iterations left
(`maxRetries - attempt + 1`), so exhaustion is the loop exit that throws
`lastError`. -/
def makeRequestGo (type : String) (endpoint : Nat → AttemptResult) :
    Nat → Nat → Option String → List Nat → RequestTrace
  | 0, attempt, lastError, sleeps => ⟨.error (lastError.getD ""), attempt - 1, sleeps⟩
  | fuel + 1, attempt, _, sleeps =>
      match endpoint attempt with
      | .response status =>
          if is2xx status ∨ type ≠ "ATLEAST_ONCE" then ⟨.ok status, attempt, sleeps⟩
          else
            let sleeps' := if attempt < maxRetries then sleeps ++ [retryDelay * attempt] else sleeps
            makeRequestGo type endpoint fuel (attempt + 1)
              (some ("HTTP " ++ toString status)) sleeps'
      | .transportError msg =>
          let sleeps' := if attempt < maxRetries then sleeps ++ [retryDelay * attempt] else sleeps
          makeRequestGo type endpoint fuel (attempt + 1) (some msg) sleeps'

/-- Embedding of `Executor.makeRequest` (lines 90-122). -/
def makeRequest (type : String) (endpoint : Nat → AttemptResult) : RequestTrace :=
  makeRequestGo type endpoint maxRetries 1 none []

/-- The record handed to `Execution.create` (lines 35-42 and 62-69),
projected to the claim-relevant fields. -/
structure ExecRecord where
  status : String
  httpStatus : Option Int
  error : Option String
deriving DecidableEq, Repr

/-- The result object returned by `Executor.execute`
(lines 51-57 and 76-83), projected to the claim-relevant fields. -/
structure Outcome where
  status : String
  httpStatus : Option Int
  error : Option String
deriving DecidableEq, Repr

/-- Full observable result of one `execute` call: the value returned to the
caller (or, as `Except.error`, the exception escaping `execute`), the
execution records actually persisted, and the request trace. -/
structure ExecuteResult where
  outcome : Except String Outcome
  persisted : List ExecRecord
  attempts : Nat
  sleeps : List Nat
deriving DecidableEq, Repr

/-- Embedding of `Executor.execute` (lines 20-85).  `persist n` is the
persistence collaborator's reply to the n-th `Execution.create` call of
this dispatch (`.error msg` embeds a storage failure thrown back).  The
`try` block covers `makeRequest` and the first `Execution.create`; the
`catch` block performs its own `Execution.create`, whose failure escapes
`execute`. -/
def execute (type : String) (endpoint : Nat → AttemptResult)
    (persist : Nat → Except String Unit) : ExecuteResult :=
  let tr := makeRequest type endpoint
  match tr.result with
  | .ok status =>
      let st := if is2xx status then "success" else "failure"
      match persist 1 with
      | .ok _ =>
          ⟨.ok ⟨st, some status, none⟩, [⟨st, some status, none⟩], tr.attempts, tr.sleeps⟩
      | .error msg =>
          match persist 2 with
          | .ok _ =>
              ⟨.ok ⟨"failure", none, some msg⟩, [⟨"failure", none, some msg⟩],
                tr.attempts, tr.sleeps⟩
          | .error msg2 => ⟨.error msg2, [], tr.attempts, tr.sleeps⟩
  | .error msg =>
      match persist 1 with
      | .ok _ =>
          ⟨.ok ⟨"failure", none, some msg⟩, [⟨"failure", none, some msg⟩],
            tr.attempts, tr.sleeps⟩
      | .error msg2 => ⟨.error msg2, [], tr.attempts, tr.sleeps⟩

end Executor

namespace Scheduler

/-- A job record as held by the scheduler (`jobId`, raw `schedule`
expression, target `api`, delivery `type`). -/
structure Job where
  jobId : String
  schedule : String
  api : String
  type : String
deriving DecidableEq, Repr

/-- The `this.metrics` object (`scheduler.js` lines 17-22); `averageDelay`
is a JavaScript number, embedded as a rational. -/
structure Metrics where
  totalExecutions : Nat
  successfulExecutions : Nat
  failedExecutions : Nat
  averageDelay : ℚ
deriving DecidableEq, Repr

/-- Initial metrics (constructor, lines 17-22). -/
def Metrics.init : Metrics := ⟨0, 0, 0, 0⟩

/-- The metrics update performed on every timer fire, `executeJob`
lines 151-156: increment `totalExecutions`; only when `drift > 0` fold the
drift into `averageDelay`, dividing by the post-increment
`totalExecutions`. -/
def updateMetricsOnFire (m : Metrics) (drift : Int) : Metrics :=
  let total := m.totalExecutions + 1
  if 0 < drift then
    { m with
      totalExecutions := total,
      averageDelay := (m.averageDelay * ((total : ℚ) - 1) + (drift : ℚ)) / (total : ℚ) }
  else { m with totalExecutions := total }

/-- Modelled from the spec's words (§4.4: "negative values are clamped to
zero for the running average"): every fire contributes a `max drift 0`
sample to the running average, so the denominator grows on every fire.
Stated for comparison with `updateMetricsOnFire`; not drawn from the
source. -/
def specClampedMetricsUpdate (m : Metrics) (drift : Int) : Metrics :=
  let total := m.totalExecutions + 1
  { m with
    totalExecutions := total,
    averageDelay := (m.averageDelay * ((total : ℚ) - 1) + max (drift : ℚ) 0) / (total : ℚ) }

/-- What the `setTimeout` callback armed at `scheduleExecution`
lines 125-131 does when it fires, in order. -/
inductive TimerStep where
  | executeJob : TimerStep
  | rescheduleJob : TimerStep
deriving DecidableEq, Repr

/-- A timer armed by `setTimeout`: its delay in milliseconds and the steps
its callback runs when it elapses. -/
structure ArmedTimer where
  delay : Int
  onFire : List TimerStep
deriving DecidableEq, Repr

/-- The `MAX_DELAY` constant of `scheduleExecution` (line 120). -/
def MAX_DELAY : Int := 2147483647

/-- The delay cap of `scheduleExecution` (lines 121-123). -/
def capDelay (delay : Int) : Int := if delay > MAX_DELAY then MAX_DELAY else delay

/-- One in-memory entry of `this.jobs` (line 14): the job, its parsed
schedule, the recorded next-fire instant and the armed timer's id. -/
structure Entry where
  job : Job
  schedule : CronParser.Schedule
  nextExecution : Nat
  timeoutId : Option Nat
deriving DecidableEq, Repr

/-- Scheduler state: the `jobId → Entry` map (as an insertion-ordered
association list), the live timers by id, the ids passed to
`clearTimeout`, and the next fresh timer id. -/
structure SchedState where
  entries : List (String × Entry)
  timers : List (Nat × ArmedTimer)
  cancelled : List Nat
  nextId : Nat
deriving DecidableEq, Repr

/-- The scheduler's initial state (empty `Map`, no timers). -/
def SchedState.empty : SchedState := ⟨[], [], [], 0⟩

/-- `this.jobs.get(jobId)`. -/
def lookupEntry (es : List (String × Entry)) (k : String) : Option Entry :=
  (es.find? (fun p => p.1 == k)).map Prod.snd

/-- `this.jobs.set(jobId, entry)`: replace in place or append. -/
def setAssoc : List (String × Entry) → String → Entry → List (String × Entry)
  | [], k, e => [(k, e)]
  | (k', e') :: rest, k, e =>
      if k' == k then (k, e) :: rest else (k', e') :: setAssoc rest k e

/-- Embedding of `Scheduler.scheduleExecution` (lines 118-139): cap the
delay, arm a fresh timer whose callback executes the job and then
reschedules it, and if the job already has a map entry record the timer id
and execution time there. -/
def scheduleExecution (st : SchedState) (job : Job) (executionTime : Nat) (delay : Int) :
    SchedState :=
  let tid := st.nextId
  let st1 := { st with
    timers := st.timers ++ [(tid, ⟨capDelay delay, [.executeJob, .rescheduleJob]⟩)],
    nextId := tid + 1 }
  match lookupEntry st1.entries job.jobId with
  | some e =>
      let e' := { e with timeoutId := some tid, nextExecution := executionTime }
      { st1 with entries := setAssoc st1.entries job.jobId e' }
  | none => st1

/-- The `clearTimeout` of an existing entry's timer, `scheduleJob`
lines 82-87. -/
def cancelExistingTimer (st : SchedState) (jobId : String) : SchedState :=
  match lookupEntry st.entries jobId with
  | some e =>
      match e.timeoutId with
      | some tid =>
          { st with
            timers := st.timers.filter (fun p => p.1 != tid),
            cancelled := st.cancelled ++ [tid] }
      | none => st
  | none => st

/-- The `try` block of `Scheduler.scheduleJob` (lines 76-109).  An
`Except.error` is an exception reaching the `catch`; it carries the state
at the throw point, since mutations already performed (the `clearTimeout`)
are not rolled back. -/
def scheduleJobBody (st : SchedState) (job : Job) (now : Nat) :
    Except (SchedState × String) SchedState :=
  match CronParser.parse job.schedule with
  | .error msg => .error (st, msg)
  | .ok schedule =>
    match CronParser.getNextExecution now schedule with
    | none => .error (st, "Could not find next execution time within reasonable range")
    | some nextExecution =>
      let st1 := cancelExistingTimer st job.jobId
      let delay : Int := (nextExecution : Int) - (now : Int)
      if delay < 0 then
        match CronParser.getNextExecution (now + 1000) schedule with
        | none => .error (st1, "Could not find next execution time within reasonable range")
        | some newNext =>
          let st2 := scheduleExecution st1 job newNext ((newNext : Int) - (now : Int))
          .ok { st2 with entries := setAssoc st2.entries job.jobId ⟨job, schedule, nextExecution, none⟩ }
      else
        let st2 := scheduleExecution st1 job nextExecution delay
        .ok { st2 with entries := setAssoc st2.entries job.jobId ⟨job, schedule, nextExecution, none⟩ }

/-- Embedding of `Scheduler.scheduleJob` (lines 75-113): the `catch` at
lines 110-112 logs the error message and returns normally, so the first
component is the resulting state and the second is the message that was
*logged* (never rethrown); `scheduleJob` itself never throws. -/
def scheduleJob (st : SchedState) (job : Job) (now : Nat) : SchedState × Option String :=
  match scheduleJobBody st job now with
  | .ok st' => (st', none)
  | .error (st', msg) => (st', some msg)

/-- Embedding of `Scheduler.addJob` (lines 196-198): exactly
`await this.scheduleJob(job)`.  Since `scheduleJob` catches every error,
`addJob` always resolves; the `Option String` is the logged message, not a
rejection. -/
def addJob (st : SchedState) (job : Job) (now : Nat) : SchedState × Option String :=
  scheduleJob st job now

end Scheduler

namespace CronParser

lemma getNextExecutionAux_sound (schedule : Schedule) :
    ∀ fuel next t, getNextExecutionAux schedule fuel next = some t →
      next ≤ t ∧ matchesSchedule t schedule = true := by
  intro fuel
  induction fuel with
  | zero => intro next t h; simp [getNextExecutionAux] at h
  | succ n ih =>
      intro next t h
      rw [getNextExecutionAux] at h
      by_cases hm : matchesSchedule next schedule = true
      · rw [if_pos hm] at h
        cases h
        exact ⟨Nat.le_refl _, hm⟩
      · rw [if_neg hm] at h
        obtain ⟨h1, h2⟩ := ih (next + 1000) t h
        exact ⟨by omega, h2⟩

/-- C1: whenever `getNextExecution(from, spec)` returns an instant, that
instant is strictly greater than `from` and `matchesSchedule` holds at it,
i.e. every one of the six fields accepts it simultaneously. -/
theorem getNextExecution_gt_and_matches (fromDate : Nat) (schedule : Schedule) (t : Nat)
    (h : getNextExecution fromDate schedule = some t) :
    fromDate < t ∧ matchesSchedule t schedule = true := by
  unfold getNextExecution at h
  obtain ⟨h1, h2⟩ := getNextExecutionAux_sound schedule maxAttempts (fromDate / 1000 * 1000 + 1000) t h
  exact ⟨by omega, h2⟩

def allSchedule : Schedule := ⟨.all, .all, .all, .all, .all, .all⟩

/-- Witness for C1 at `fromDate = 500` and the all-`*` schedule. -/
theorem getNextExecution_gt_and_matches_witness :
    getNextExecution 500 allSchedule = some 1000 ∧
    (500 < 1000 ∧ matchesSchedule 1000 allSchedule = true) :=
  ⟨rfl, getNextExecution_gt_and_matches 500 allSchedule 1000 rfl⟩

/-- C9: `"FRI-MON"` parses to the wrapped match-set `[5, 6, 0, 1]`, and in
general the day-of-week range loop steps forward modulo 7 from start to end
inclusive. -/
theorem parseDayOfWeek_friMon_wraps :
    parseDayOfWeek "FRI-MON".data = .ok (.range [.int 5, .int 6, .int 0, .int 1]) ∧
    (∀ s, s < 7 → ∀ e, e < 7 →
      wrapRangeAux 7 s e =
        (List.range ((e + 7 - s) % 7 + 1)).map (fun i => (((s + i) % 7 : Nat) : Int))) := by
  exact ⟨rfl, by decide⟩

/-- Witness for C9's general wrap statement at start `FRI = 5`,
end `MON = 1`. -/
theorem parseDayOfWeek_friMon_wraps_witness :
    (5 : Nat) < 7 ∧ (1 : Nat) < 7 ∧
    wrapRangeAux 7 5 1 =
      (List.range ((1 + 7 - 5) % 7 + 1)).map (fun i => (((5 + i) % 7 : Nat) : Int)) :=
  ⟨by decide, by decide, parseDayOfWeek_friMon_wraps.2 5 (by decide) 1 (by decide)⟩

def nanSpec : Schedule := ⟨.single [.nan], .all, .all, .all, .all, .all⟩

lemma nanSpec_matches_false (t : Nat) : matchesSchedule t nanSpec = false := by
  simp [matchesSchedule, nanSpec, fieldMatches, jsIncludes, JSNum.sameValueZero]

lemma getNextExecutionAux_nanSpec_none :
    ∀ fuel next, getNextExecutionAux nanSpec fuel next = none := by
  intro fuel
  induction fuel with
  | zero => intro next; rfl
  | succ n ih =>
      intro next
      rw [getNextExecutionAux, nanSpec_matches_false next]
      simpa using ih (next + 1000)

/-- C10: the non-numeric token `"x"` in the seconds field is converted to
`NaN`, which passes the bounds check, so `parse` succeeds with match-set
`[NaN]`; that field matches no instant, so every `getNextExecution` call on
the spec exhausts its full one-year horizon and fails. -/
theorem parse_nanToken_succeeds_never_matches :
    parse "x * * * * *" = .ok nanSpec ∧
    (∀ t, matchesSchedule t nanSpec = false) ∧
    (∀ fromDate, getNextExecution fromDate nanSpec = none) :=
  ⟨rfl, nanSpec_matches_false, fun _ => getNextExecutionAux_nanSpec_none _ _⟩

/-- C5 (code-bug evaluation): out-of-domain values in a day-of-week comma
list are accepted by `parse` — the list branch of `parseDayOfWeek`
validates nothing — while the identical list in a numeric field is
rejected by `parseField`'s list validation. -/
theorem parse_dayOfWeekList_outOfDomain_accepted :
    parse "* * * * * 7,8" = .ok ⟨.all, .all, .all, .all, .all, .list [.int 7, .int 8]⟩ ∧
    parse "7,60 * * * * *" = .error "Invalid value in list: 7,60" :=
  ⟨rfl, rfl⟩

end CronParser

namespace Executor

def alwaysTransportError : Nat → AttemptResult := fun _ => .transportError "connect ECONNREFUSED"

/-- C2 (code-bug evaluation): in NO_RETRY mode (`type ≠ 'ATLEAST_ONCE'`) a
transport error is retried — three outbound attempts with 1s and 2s waits —
although a non-2xx response is indeed final after one attempt. -/
theorem makeRequest_noRetry_transportError_retries :
    makeRequest "EXACTLY_ONCE" alwaysTransportError =
      ⟨.error "connect ECONNREFUSED", 3, [1000, 2000]⟩ ∧
    makeRequest "EXACTLY_ONCE" (fun _ => .response 500) = ⟨.ok 500, 1, []⟩ :=
  ⟨rfl, rfl⟩

end Executor

namespace Executor

lemma makeRequestGo_attempts_le (type : String) (endpoint : Nat → AttemptResult) :
    ∀ fuel attempt lastError sleeps,
      (makeRequestGo type endpoint fuel attempt lastError sleeps).attempts ≤ attempt - 1 + fuel := by
  intro fuel
  induction fuel with
  | zero => intro attempt le sleeps; simp [makeRequestGo]
  | succ n ih =>
      intro attempt le sleeps
      rw [makeRequestGo]
      cases h : endpoint attempt with
      | response status =>
          simp only []
          split_ifs with hc hlt
          · simp; omega
          · exact le_trans (ih (attempt + 1) _ _) (by omega)
          · exact le_trans (ih (attempt + 1) _ _) (by omega)
      | transportError msg =>
          simp only []
          exact le_trans (ih (attempt + 1) _ _) (by omega)

/-- C3: in AT_LEAST_ONCE mode a 2xx response is terminal success, at most 3
total attempts are made with linear waits of `attempt × 1s` between them,
and against an endpoint failing attempts 1-2 and succeeding on attempt 3
the dispatch yields one success outcome, one persisted record, and backoff
sleeps `[1000, 2000]` (≥ 1s + 2s in total). -/
theorem execute_atLeastOnce_linear_backoff :
    (∀ (endpoint : Nat → AttemptResult) (s1 s2 s3 : Int),
      endpoint 1 = .response s1 → endpoint 2 = .response s2 → endpoint 3 = .response s3 →
      is2xx s1 = false → is2xx s2 = false → is2xx s3 = true →
      ∀ (persist : Nat → Except String Unit), persist 1 = .ok () →
        execute "ATLEAST_ONCE" endpoint persist =
          ⟨.ok ⟨"success", some s3, none⟩, [⟨"success", some s3, none⟩], 3, [1000, 2000]⟩) ∧
    (∀ (endpoint : Nat → AttemptResult) (s : Int),
      endpoint 1 = .response s → is2xx s = true →
      makeRequest "ATLEAST_ONCE" endpoint = ⟨.ok s, 1, []⟩) ∧
    (∀ (type : String) (endpoint : Nat → AttemptResult),
      (makeRequest type endpoint).attempts ≤ 3) := by
  refine ⟨?_, ?_, ?_⟩
  · intro endpoint s1 s2 s3 h1 h2 h3 hs1 hs2 hs3 persist hp
    have hmr : makeRequest "ATLEAST_ONCE" endpoint = ⟨.ok s3, 3, [1000, 2000]⟩ := by
      unfold makeRequest maxRetries
      rw [makeRequestGo]
      simp only [h1, hs1, hs2, hs3]
      norm_num [makeRequestGo, h2, h3, hs2, hs3, maxRetries, retryDelay]
    simp only [execute, hmr, hs3, hp]
    rfl
  · intro endpoint s h1 hs
    unfold makeRequest maxRetries
    rw [makeRequestGo]
    simp [h1, hs]
  · intro type endpoint
    have := makeRequestGo_attempts_le type endpoint maxRetries 1 none []
    simpa [makeRequest, maxRetries] using this

def scenarioEndpoint : Nat → AttemptResult := fun n => if n = 3 then .response 200 else .response 500

def persistOk : Nat → Except String Unit := fun _ => .ok ()

/-- Witness for C3 at an endpoint answering 500, 500, 200. -/
theorem execute_atLeastOnce_linear_backoff_witness :
    scenarioEndpoint 1 = .response 500 ∧ scenarioEndpoint 2 = .response 500 ∧
    scenarioEndpoint 3 = .response 200 ∧ is2xx 500 = false ∧ is2xx 200 = true ∧
    persistOk 1 = .ok () ∧
    execute "ATLEAST_ONCE" scenarioEndpoint persistOk =
      ⟨.ok ⟨"success", some 200, none⟩, [⟨"success", some 200, none⟩], 3, [1000, 2000]⟩ :=
  ⟨rfl, rfl, rfl, rfl, rfl, rfl,
    execute_atLeastOnce_linear_backoff.1 scenarioEndpoint 500 500 200 rfl rfl rfl rfl rfl rfl
      persistOk rfl⟩

def alwaysOk200 : Nat → AttemptResult := fun _ => .response 200

def persistAlwaysFails : Nat → Except String Unit := fun _ => .error "db down"

/-- C4 counterexample: with a successful request but a persistence
collaborator that fails, the `catch` block's own `Execution.create` throws
and `execute` raises `"db down"` to its caller with zero persisted
records. -/
theorem execute_persistFailure_raises :
    execute "ATLEAST_ONCE" alwaysOk200 persistAlwaysFails = ⟨.error "db down", [], 1, []⟩ :=
  rfl

/-- C4 amended: `dispatch` never raises provided the persistence
collaborator succeeds — with one persisted record per dispatch — and
whenever it returns normally exactly one record is persisted; transport
failures are captured into a failure outcome, never propagated. -/
theorem execute_amended_contract (type : String) (endpoint : Nat → AttemptResult)
    (persist : Nat → Except String Unit) :
    ((∀ n, persist n = .ok ()) →
      (execute type endpoint persist).outcome.isOk = true ∧
      (execute type endpoint persist).persisted.length = 1) ∧
    ((execute type endpoint persist).outcome.isOk = true →
      (execute type endpoint persist).persisted.length = 1) ∧
    (∀ msg, (∀ n, persist n = .ok ()) → (makeRequest type endpoint).result = .error msg →
      (execute type endpoint persist).outcome = .ok ⟨"failure", none, some msg⟩) := by
  refine ⟨?_, ?_, ?_⟩
  · intro hp
    unfold execute
    rcases hr : (makeRequest type endpoint).result with msg | status
    · simp [hr, hp 1, Except.isOk, Except.toBool]
    · simp [hr, hp 1, Except.isOk, Except.toBool]
  · intro hok
    unfold execute at hok ⊢
    rcases hr : (makeRequest type endpoint).result with msg | status <;>
      rcases h1 : persist 1 with m1 | u1
    · simp_all [Except.isOk, Except.toBool]
    · simp_all [Except.isOk, Except.toBool]
    · rcases h2 : persist 2 with m2 | u2 <;> simp_all [Except.isOk, Except.toBool]
    · simp_all [Except.isOk, Except.toBool]
  · intro msg hp hr
    unfold execute
    simp [hr, hp 1]

/-- Witness for C4's amended contract at an always-succeeding persistence
collaborator. -/
theorem execute_amended_contract_witness :
    (∀ n, persistOk n = .ok ()) ∧
    (execute "ATLEAST_ONCE" alwaysOk200 persistOk).outcome.isOk = true ∧
    (execute "ATLEAST_ONCE" alwaysOk200 persistOk).persisted.length = 1 :=
  ⟨fun _ => rfl,
    (execute_amended_contract "ATLEAST_ONCE" alwaysOk200 persistOk).1 (fun _ => rfl)⟩

end Executor

namespace Scheduler

/-- C6 counterexample: after a fire with drift 5 and then a fire with
drift 0, the source leaves the running average at 5 (the `drift > 0` guard
skips the update entirely), whereas incorporating a clamped zero-drift
sample — as the claim states — would dilute it to 5/2. -/
theorem updateMetrics_zeroDrift_leavesAverage :
    (updateMetricsOnFire (updateMetricsOnFire Metrics.init 5) 0).averageDelay = 5 ∧
    (specClampedMetricsUpdate (updateMetricsOnFire Metrics.init 5) 0).averageDelay = 5 / 2 ∧
    (5 : ℚ) ≠ 5 / 2 := by
  refine ⟨?_, ?_, by norm_num⟩
  · norm_num [updateMetricsOnFire, Metrics.init]
  · norm_num [updateMetricsOnFire, specClampedMetricsUpdate, Metrics.init]

/-- C6 amended: every timer fire increments `totalExecutions`; a strictly
positive drift is folded into the average with the post-increment
`totalExecutions` (which also counts earlier non-positive-drift fires) as
denominator; a non-positive drift leaves the average untouched. -/
theorem updateMetrics_amended (m : Metrics) (drift : Int) :
    (updateMetricsOnFire m drift).totalExecutions = m.totalExecutions + 1 ∧
    (0 < drift →
      (updateMetricsOnFire m drift).averageDelay =
        (m.averageDelay * (m.totalExecutions : ℚ) + (drift : ℚ)) /
          ((m.totalExecutions : ℚ) + 1)) ∧
    (drift ≤ 0 → (updateMetricsOnFire m drift).averageDelay = m.averageDelay) := by
  unfold updateMetricsOnFire
  by_cases h : 0 < drift
  · rw [if_pos h]
    refine ⟨rfl, fun _ => ?_, fun hle => absurd h (by omega)⟩
    push_cast
    ring_nf
  · rw [if_neg h]
    exact ⟨rfl, fun hlt => absurd hlt h, fun _ => rfl⟩

/-- Witness for C6's amended statement at drift 3 from the initial
metrics. -/
theorem updateMetrics_amended_witness :
    ((0 : Int) < 3) ∧
    (updateMetricsOnFire Metrics.init 3).averageDelay =
      (Metrics.init.averageDelay * (Metrics.init.totalExecutions : ℚ) + ((3 : Int) : ℚ)) /
        ((Metrics.init.totalExecutions : ℚ) + 1) :=
  ⟨by norm_num, (updateMetrics_amended Metrics.init 3).2.1 (by norm_num)⟩

def exampleJob : Job := ⟨"job-1", "0 0 12 * * *", "http://localhost:4444/foo", "ATLEAST_ONCE"⟩

/-- C7 (code-bug evaluation): a computed delay of 2600000000 ms is capped
to 2147483647 ms, and the timer armed for the capped delay runs a callback
whose first step executes the job (then reschedules it) — so the job runs
452516353 ms before its computed next-fire instant instead of the timer
being re-armed without execution. -/
theorem scheduleExecution_cappedTimer_executes_early :
    capDelay 2600000000 = 2147483647 ∧ (2147483647 : Int) < 2600000000 ∧
    (scheduleExecution SchedState.empty exampleJob 2600000000 2600000000).timers =
      [(0, ⟨2147483647, [.executeJob, .rescheduleJob]⟩)] := by
  refine ⟨by norm_num [capDelay, MAX_DELAY], by norm_num, ?_⟩
  decide

def badJob : Job := ⟨"job-bad", "70 * * * * *", "http://localhost:4444/foo", "ATLEAST_ONCE"⟩

/-- C8 counterexample: for a schedule with an out-of-range field the `try`
body of `scheduleJob` throws `MalformedExpression`, yet `addJob` resolves
successfully — the message lands only in the log component — with the
state unchanged, contradicting "the call fails rather than resolving
successfully". -/
theorem addJob_malformed_resolves :
    scheduleJobBody SchedState.empty badJob 0 =
      .error (SchedState.empty, "Invalid value: 70") ∧
    addJob SchedState.empty badJob 0 = (SchedState.empty, some "Invalid value: 70") :=
  ⟨rfl, rfl⟩

/-- C8 amended: for every job whose schedule fails to parse, `addJob`
resolves successfully with the failure message merely logged (never
surfaced), and the state is returned unchanged — no `ScheduledEntry` is
created or replaced and no timer is armed. -/
theorem addJob_malformed_swallowed_unscheduled (st : SchedState) (job : Job) (now : Nat)
    (msg : String) (h : CronParser.parse job.schedule = .error msg) :
    addJob st job now = (st, some msg) := by
  simp [addJob, scheduleJob, scheduleJobBody, h]

/-- Witness for C8's amended statement at a concrete malformed job. -/
theorem addJob_malformed_swallowed_unscheduled_witness :
    CronParser.parse badJob.schedule = .error "Invalid value: 70" ∧
    addJob SchedState.empty badJob 0 = (SchedState.empty, some "Invalid value: 70") :=
  ⟨rfl, addJob_malformed_swallowed_unscheduled SchedState.empty badJob 0 "Invalid value: 70" rfl⟩

end Scheduler
